import Mathlib

/-!
Shallow embedding of the travel-companion backend (Express + Postgres).

The canonical route implementations are in `src/api/index.js`; the
authentication middleware `verifyToken` is the module rendered as
`src/unnamed/part_000` (the `firebaseAdmin.js` import of `index.js`).
An older route variant (`src/unnamed/part_002`) supplies the COALESCE
form of the trip update, embedded here as `applyTripUpdateCoalesce`.

Conventions of the embedding:
* Request-body fields carry JavaScript runtime values (`JVal`); an absent
  field is `JVal.undef`, JSON null is `JVal.jnull`, and NaN is `JVal.jnan`.
* The relational store is a record of lists of rows (`DB`).  Row ids are
  assumed distinct, so `COUNT(DISTINCT x.id)` is a filtered length.
* The store accepts every value a handler writes (the repository contains
  no schema, so column-level rejections are not modelled).
* `pg` parameter conversion sends JavaScript `undefined` as SQL NULL, so
  `COALESCE($n, col)` keeps the column exactly when the body value is
  nullish (`undef` or `jnull`).
* Date and timestamp columns are day/instant numbers (`ℤ`): the handlers
  pass them through untransformed, so the transport representation is
  irrelevant to every property proved here.
-/

set_option linter.unusedVariables false
set_option linter.unnecessarySeqFocus false

namespace TravelApi

/-- JavaScript runtime values as they occur in parsed JSON request bodies and
in the column values the handlers compute.  `undef` models a field that is
absent from the body. -/
inductive JVal where
  | undef
  | jnull
  | jbool (b : Bool)
  | jnum (q : ℚ)
  | jnan
  | jstr (s : String)
  deriving DecidableEq, Repr

/-- Numeric value of a digit string read most-significant first. -/
def natOfDigits (cs : List Char) : ℕ :=
  cs.foldl (fun acc c => 10 * acc + (c.toNat - '0'.toNat)) 0

/-- Longest leading run of decimal digits with an optional fractional part,
as JavaScript `parseFloat` reads it; `none` when no digit is found. -/
def parseUnsignedPrefix (cs : List Char) : Option ℚ :=
  let ip := cs.takeWhile Char.isDigit
  let rest := cs.dropWhile Char.isDigit
  match rest with
  | '.' :: rest2 =>
      let fp := rest2.takeWhile Char.isDigit
      if ip.isEmpty && fp.isEmpty then none
      else some ((natOfDigits ip : ℚ) + (natOfDigits fp : ℚ) / (10 : ℚ) ^ fp.length)
  | _ => if ip.isEmpty then none else some ((natOfDigits ip : ℚ))

/-- JavaScript `parseFloat` on a string: trims, reads an optional sign and a
decimal prefix; `none` models NaN. -/
def jsParseFloatStr (s : String) : Option ℚ :=
  match s.trim.toList with
  | '-' :: cs => (parseUnsignedPrefix cs).map (fun q => -q)
  | '+' :: cs => parseUnsignedPrefix cs
  | cs => parseUnsignedPrefix cs

/-- JavaScript `parseInt` on a string: trims, reads an optional sign and the
leading digits; `none` models NaN. -/
def jsParseIntStr (s : String) : Option ℤ :=
  match s.trim.toList with
  | '-' :: cs =>
      let d := cs.takeWhile Char.isDigit
      if d.isEmpty then none else some (-(natOfDigits d : ℤ))
  | '+' :: cs =>
      let d := cs.takeWhile Char.isDigit
      if d.isEmpty then none else some ((natOfDigits d : ℤ))
  | cs =>
      let d := cs.takeWhile Char.isDigit
      if d.isEmpty then none else some ((natOfDigits d : ℤ))

/-- Full-string numeric reading used by JavaScript `ToNumber` on strings:
the whole trimmed string must be a signed decimal numeral; the empty string
reads as 0; `none` models NaN. -/
def parseUnsignedFull (cs : List Char) : Option ℚ :=
  let ip := cs.takeWhile Char.isDigit
  let rest := cs.dropWhile Char.isDigit
  match rest with
  | [] => if ip.isEmpty then none else some ((natOfDigits ip : ℚ))
  | '.' :: rest2 =>
      let fp := rest2.takeWhile Char.isDigit
      let rest3 := rest2.dropWhile Char.isDigit
      if rest3.isEmpty && !(ip.isEmpty && fp.isEmpty) then
        some ((natOfDigits ip : ℚ) + (natOfDigits fp : ℚ) / (10 : ℚ) ^ fp.length)
      else none
  | _ => none

/-- JavaScript `ToNumber` on a string. -/
def jsNumberStr (s : String) : Option ℚ :=
  match s.trim.toList with
  | [] => some 0
  | '-' :: cs => (parseUnsignedFull cs).map (fun q => -q)
  | '+' :: cs => parseUnsignedFull cs
  | cs => parseUnsignedFull cs

/-- JavaScript `ToNumber` coercion of a runtime value; `none` models NaN. -/
def JVal.toNum : JVal → Option ℚ
  | .undef => none
  | .jnull => some 0
  | .jbool b => some (if b then 1 else 0)
  | .jnum q => some q
  | .jnan => none
  | .jstr s => jsNumberStr s

/-- JavaScript truthiness. -/
def JVal.truthy : JVal → Bool
  | .undef => false
  | .jnull => false
  | .jbool b => b
  | .jnum q => decide (q ≠ 0)
  | .jnan => false
  | .jstr s => decide (s ≠ "")

/-- Whether `pg` sends the value as SQL NULL (JavaScript `undefined` is
converted to null by the driver). -/
def JVal.isNullish : JVal → Bool
  | .undef => true
  | .jnull => true
  | _ => false

/-- JavaScript `parseFloat` on a runtime value: non-string non-number
arguments stringify to non-numeric text and give NaN. -/
def jsParseFloat : JVal → JVal
  | .jnum q => .jnum q
  | .jstr s =>
      match jsParseFloatStr s with
      | some q => .jnum q
      | none => .jnan
  | _ => .jnan

/-- Truncation of a rational toward zero, as JavaScript `parseInt` applied to
the decimal rendering of a finite number. -/
def truncToward0 (q : ℚ) : ℤ :=
  if 0 ≤ q then ⌊q⌋ else ⌈q⌉

/-- JavaScript `parseInt` on a runtime value. -/
def jsParseInt : JVal → JVal
  | .jnum q => .jnum ((truncToward0 q : ℤ) : ℚ)
  | .jstr s =>
      match jsParseIntStr s with
      | some i => .jnum ((i : ℤ) : ℚ)
      | none => .jnan
  | _ => .jnan

/-- JavaScript relational comparison `v < c` against a number literal: the
value is coerced with `ToNumber`, and any NaN comparison is false. -/
def jsLtNum (v : JVal) (c : ℚ) : Bool :=
  match v.toNum with
  | some q => decide (q < c)
  | none => false

/-- JavaScript relational comparison `v > c` against a number literal. -/
def jsGtNum (v : JVal) (c : ℚ) : Bool :=
  match v.toNum with
  | some q => decide (c < q)
  | none => false

/-- JavaScript `Math.round`, which rounds half toward positive infinity. -/
def jsMathRound (q : ℚ) : ℤ := ⌊q + 1 / 2⌋

/-- Row of the `users` table (`firebase_uid` is the external subject id). -/
structure UserRow where
  firebase_uid : String
  email : String
  deriving DecidableEq, Repr

/-- Row of the `trips` table, with the columns the canonical handlers touch.
`is_favorite` is a boolean column; the nullable enrichment columns hold the
values the handlers wrote. -/
structure Trip where
  id : ℕ
  user_firebase_uid : String
  title : JVal
  country : JVal
  city : JVal
  start_date : ℤ
  end_date : ℤ
  notes : JVal
  image_url : JVal
  trip_type : JVal
  budget : JVal
  traveler_count : JVal
  is_favorite : Bool
  trip_rating : JVal
  deriving DecidableEq, Repr

/-- Row of the `destinations` table.  Note that it has no owner column of its
own: only `trip_id` links it to a trip. -/
structure Destination where
  id : ℕ
  trip_id : ℕ
  name : JVal
  description : JVal
  image_url : JVal
  order_index : ℤ
  destination_type : JVal
  address : JVal
  visit_date : Option ℤ
  visit_time : JVal
  price_range : JVal
  priority_level : ℤ
  is_completed : Bool
  location_lat : JVal
  location_lng : JVal
  deriving DecidableEq, Repr

/-- Row of the `photos` table. -/
structure Photo where
  id : ℕ
  trip_id : ℕ
  destination_id : Option ℕ
  image_url : JVal
  caption : JVal
  uploaded_at : ℤ
  deriving DecidableEq, Repr

/-- The relational store. -/
structure DB where
  users : List UserRow
  trips : List Trip
  destinations : List Destination
  photos : List Photo
  deriving DecidableEq, Repr

/-- The verified identity the middleware attaches to the request
(`req.user = \x7b uid, email \x7d`). -/
structure AuthUser where
  uid : String
  email : String
  deriving DecidableEq, Repr

/-- Outcome of the authentication middleware: either the request is
terminated with an HTTP status and a JSON `error` body and no handler runs,
or the handler runs with `req.user` set; `upsertFailureLogged` records that
the user-insert step failed and was only logged. -/
inductive MwOutcome where
  | rejected (status : ℕ) (error : String)
  | authenticated (user : AuthUser) (db : DB) (upsertFailureLogged : Bool)
  deriving DecidableEq, Repr

/-- The user-insert step of `verifyToken`:
`INSERT INTO users (firebase_uid, email) VALUES ($1, $2)
 ON CONFLICT (firebase_uid) DO NOTHING`. -/
def upsertUser (db : DB) (uid email : String) : DB :=
  if db.users.any (fun r => r.firebase_uid == uid) then db
  else { db with users := db.users ++ [⟨uid, email⟩] }

/-- Whether `p` is a prefix of `s`, i.e. JavaScript `s.startsWith(p)`. -/
def strStartsWith (s p : String) : Bool :=
  p.data.isPrefixOf s.data

/-- JavaScript `String.prototype.split(" ")` on the character list. -/
def splitOnSpace : List Char → List Char → List (List Char)
  | [], acc => [acc.reverse]
  | c :: rest, acc =>
      if c == ' ' then acc.reverse :: splitOnSpace rest []
      else splitOnSpace rest (c :: acc)

/-- The token the middleware extracts: `authHeader.split(" ")[1]`. -/
def bearerToken (h : String) : String :=
  match splitOnSpace h.data [] with
  | _ :: t :: _ => ⟨t⟩
  | _ => ""

/-- The `verifyToken` middleware.  `providerVerify` abstracts the external
identity provider (`admin.auth().verifyIdToken`), returning the decoded
`\x7b uid, email \x7d` or `none` on rejection; `storeOk` abstracts whether the
user-insert round trip to the store succeeds. -/
def verifyToken (db : DB) (authHeader : Option String)
    (providerVerify : String → Option AuthUser) (storeOk : Bool) : MwOutcome :=
  match authHeader with
  | none => .rejected 401 "Unauthorized: No token provided"
  | some h =>
      if strStartsWith h "Bearer " then
        match providerVerify (bearerToken h) with
        | none => .rejected 401 "Unauthorized: Invalid token"
        | some u =>
            if storeOk then .authenticated u (upsertUser db u.uid u.email) false
            else .authenticated u db true
      else
        .rejected 401 "Unauthorized: No token provided"

/-- HTTP response shape: a status code and the JSON `error` field, when one
is sent. -/
structure HResp where
  status : ℕ
  error : Option String
  deriving DecidableEq, Repr

/-- Request body of `PUT /trips/:id` as destructured by the handler. -/
structure TripUpdateBody where
  title : JVal
  country : JVal
  city : JVal
  start_date : ℤ
  end_date : ℤ
  notes : JVal
  image_url : JVal
  trip_type : JVal
  budget : JVal
  traveler_count : JVal
  is_favorite : JVal
  trip_rating : JVal
  deriving DecidableEq, Repr

/-- `budget !== '' && budget !== null ? parseFloat(budget) : null`. -/
def cleanBudget (budget : JVal) : JVal :=
  if budget ≠ .jstr "" ∧ budget ≠ .jnull then jsParseFloat budget else .jnull

/-- `traveler_count ? parseInt(traveler_count) : 1`. -/
def cleanTravelerCount (tc : JVal) : JVal :=
  if tc.truthy then jsParseInt tc else .jnum 1

/-- `trip_rating !== '' && trip_rating !== null ? parseInt(trip_rating) : null`. -/
def cleanTripRating (tr : JVal) : JVal :=
  if tr ≠ .jstr "" ∧ tr ≠ .jnull then jsParseInt tr else .jnull

/-- `Boolean(is_favorite)`. -/
def cleanIsFavorite (f : JVal) : Bool := f.truthy

/-- The row written by the UPDATE of the canonical `PUT /trips/:id`
(`src/api/index.js`): core columns are assigned the body values outright,
`trip_type = COALESCE($8, trip_type)`, and the remaining enrichment columns
are assigned the cleaned values. -/
def applyTripUpdate (t : Trip) (b : TripUpdateBody) : Trip :=
  { t with
    title := b.title
    country := b.country
    city := b.city
    start_date := b.start_date
    end_date := b.end_date
    notes := b.notes
    image_url := b.image_url
    trip_type := if b.trip_type.isNullish then t.trip_type else b.trip_type
    budget := cleanBudget b.budget
    traveler_count := cleanTravelerCount b.traveler_count
    is_favorite := cleanIsFavorite b.is_favorite
    trip_rating := cleanTripRating b.trip_rating }

/-- The row written by the UPDATE of the older variant of `PUT /trips/:id`
(`src/unnamed/part_002`): every enrichment column, not only `trip_type`,
goes through `COALESCE($n, col)` with the raw body value. -/
def applyTripUpdateCoalesce (t : Trip) (b : TripUpdateBody) : Trip :=
  { t with
    title := b.title
    country := b.country
    city := b.city
    start_date := b.start_date
    end_date := b.end_date
    notes := b.notes
    image_url := b.image_url
    trip_type := if b.trip_type.isNullish then t.trip_type else b.trip_type
    budget := if b.budget.isNullish then t.budget else b.budget
    traveler_count :=
      if b.traveler_count.isNullish then t.traveler_count else b.traveler_count
    is_favorite :=
      if b.is_favorite.isNullish then t.is_favorite
      else cleanIsFavorite b.is_favorite
    trip_rating := if b.trip_rating.isNullish then t.trip_rating else b.trip_rating }

/-- `PUT /trips/:id` (canonical): looks the trip up, answers 404 when it is
absent and 403 when the requester is not its owner, and only then issues the
UPDATE. -/
def updateTrip (db : DB) (uid : String) (tripId : ℕ) (b : TripUpdateBody) :
    HResp × DB :=
  match db.trips.find? (fun t => t.id == tripId) with
  | none => (⟨404, some "Trip not found"⟩, db)
  | some t =>
      if t.user_firebase_uid ≠ uid then
        (⟨403, some "Not authorized to edit this trip"⟩, db)
      else
        (⟨200, none⟩,
         { db with
           trips := db.trips.map
             (fun r => if r.id == tripId then applyTripUpdate r b else r) })

/-- `DELETE /trips/:id`: `DELETE FROM trips WHERE id = $1` with no ownership
check; the requester id from `req.user` is never consulted. -/
def deleteTrip (db : DB) (uid : String) (tripId : ℕ) : HResp × DB :=
  (⟨200, none⟩, { db with trips := db.trips.filter (fun t => t.id ≠ tripId) })

/-- `PATCH /trips/:id/favorite`: flips `is_favorite` of the addressed row
with no ownership check.  When no row matches, reading
`result.rows[0].is_favorite` throws and the catch block answers 500. -/
def toggleFavorite (db : DB) (uid : String) (tripId : ℕ) : HResp × DB :=
  match db.trips.find? (fun t => t.id == tripId) with
  | none => (⟨500, some "Cannot read properties of undefined"⟩, db)
  | some _ =>
      (⟨200, none⟩,
       { db with
         trips := db.trips.map
           (fun r =>
             if r.id == tripId then { r with is_favorite := !r.is_favorite }
             else r) })

/-- `PATCH /trips/:id/rating`: answers 400 when `rating < 1 || rating > 5`
(JavaScript comparisons) and otherwise writes the raw body value, with no
ownership check and no row-existence check. -/
def setRating (db : DB) (uid : String) (tripId : ℕ) (rating : JVal) :
    HResp × DB :=
  if jsLtNum rating 1 || jsGtNum rating 5 then
    (⟨400, some "Rating must be between 1 and 5"⟩, db)
  else
    (⟨200, none⟩,
     { db with
       trips := db.trips.map
         (fun r =>
           if r.id == tripId then { r with trip_rating := rating } else r) })

/-- Enriched trip record produced by the aggregate SELECT of `GET /trips`
and `GET /trips/:id`. -/
structure TripView where
  trip : Trip
  duration_days : ℤ
  destination_count : ℕ
  photo_count : ℕ
  completed_destinations : ℕ
  deriving DecidableEq, Repr

/-- The aggregate columns computed per trip row: `duration_days` and the
`COUNT(DISTINCT ...)` columns over the joined destinations and photos. -/
def enrichTrip (db : DB) (t : Trip) : TripView :=
  { trip := t
    duration_days := t.end_date - t.start_date + 1
    destination_count :=
      (db.destinations.filter (fun d => d.trip_id == t.id)).length
    photo_count := (db.photos.filter (fun p => p.trip_id == t.id)).length
    completed_destinations :=
      (db.destinations.filter (fun d => d.trip_id == t.id && d.is_completed)).length }

/-- ORDER BY `t.start_date DESC` of `GET /trips`. -/
def tripRel (a b : Trip) : Prop := b.start_date ≤ a.start_date

instance : DecidableRel tripRel := fun a b => by
  unfold tripRel; infer_instance

instance : IsTotal Trip tripRel :=
  ⟨fun a b => (le_total b.start_date a.start_date).imp (fun h => h) (fun h => h)⟩

instance : IsTrans Trip tripRel :=
  ⟨fun a b c hab hbc => le_trans hbc hab⟩

/-- `GET /trips`: the requester's own trips (`WHERE t.user_firebase_uid =
$1`), enriched, most recent start date first. -/
def listTrips (db : DB) (uid : String) : List TripView :=
  ((db.trips.filter (fun t => t.user_firebase_uid == uid)).insertionSort
      tripRel).map (enrichTrip db)

/-- `GET /trips/:id`: the addressed trip, enriched; 404 when absent.  The
requester from `req.user` is never consulted. -/
def getTrip (db : DB) (uid : String) (tripId : ℕ) : HResp × Option TripView :=
  match db.trips.find? (fun t => t.id == tripId) with
  | none => (⟨404, some "Trip not found"⟩, none)
  | some t => (⟨200, none⟩, some (enrichTrip db t))

/-- The row of `GET /trips/:id/stats`. -/
structure StatsRow where
  total_destinations : ℕ
  completed_destinations : ℕ
  total_photos : ℕ
  must_see_destinations : ℕ
  progress_percentage : ℤ
  deriving DecidableEq, Repr

/-- `GET /trips/:id/stats`: the aggregate query has no GROUP BY, so it yields
exactly one row even when the trip is absent (all counts 0); the handler then
computes `progress_percentage` with an explicit zero-total guard.  The
requester from `req.user` is never consulted. -/
def tripStats (db : DB) (uid : String) (tripId : ℕ) : StatsRow :=
  let present := db.trips.any (fun t => t.id == tripId)
  let ds :=
    if present then db.destinations.filter (fun d => d.trip_id == tripId)
    else []
  let ph :=
    if present then db.photos.filter (fun p => p.trip_id == tripId) else []
  let total := ds.length
  let completed := (ds.filter (fun d => d.is_completed)).length
  { total_destinations := total
    completed_destinations := completed
    total_photos := ph.length
    must_see_destinations := (ds.filter (fun d => d.priority_level == 1)).length
    progress_percentage :=
      if 0 < total then jsMathRound (((completed : ℚ) / (total : ℚ)) * 100)
      else 0 }

/-- Request body of the destination create/update handlers.  `visit_date`,
`priority_level` and `is_completed` are `none` when the body value is
nullish, matching what the COALESCE columns and the destructuring default
can distinguish. -/
structure DestinationBody where
  name : JVal
  description : JVal
  image_url : JVal
  order_index : ℤ
  destination_type : JVal
  address : JVal
  visit_date : Option ℤ
  visit_time : JVal
  price_range : JVal
  priority_level : Option ℤ
  is_completed : Option Bool
  location_lat : JVal
  location_lng : JVal
  deriving DecidableEq, Repr

/-- Fresh generated id for an INSERT into `destinations`. -/
def nextDestinationId (db : DB) : ℕ :=
  (db.destinations.map (fun d => d.id)).foldr max 0 + 1

/-- `POST /trips/:tripId/destinations`: inserts the row for the addressed
trip with `priority_level` defaulting to 3, without resolving the trip or
checking its owner. -/
def createDestination (db : DB) (uid : String) (tripId : ℕ)
    (b : DestinationBody) : HResp × DB :=
  let d : Destination :=
    { id := nextDestinationId db
      trip_id := tripId
      name := b.name
      description := b.description
      image_url := b.image_url
      order_index := b.order_index
      destination_type := b.destination_type
      address := b.address
      visit_date := b.visit_date
      visit_time := b.visit_time
      price_range := b.price_range
      priority_level := b.priority_level.getD 3
      is_completed := false
      location_lat := b.location_lat
      location_lng := b.location_lng }
  (⟨201, none⟩, { db with destinations := db.destinations ++ [d] })

/-- The row written by `PUT /destinations/:id`: `name`, `description`,
`image_url`, `order_index` are assigned outright, every other column goes
through `COALESCE($n, col)`. -/
def applyDestinationUpdate (d : Destination) (b : DestinationBody) :
    Destination :=
  { d with
    name := b.name
    description := b.description
    image_url := b.image_url
    order_index := b.order_index
    destination_type :=
      if b.destination_type.isNullish then d.destination_type
      else b.destination_type
    address := if b.address.isNullish then d.address else b.address
    visit_date :=
      match b.visit_date with
      | none => d.visit_date
      | some v => some v
    visit_time := if b.visit_time.isNullish then d.visit_time else b.visit_time
    price_range :=
      if b.price_range.isNullish then d.price_range else b.price_range
    priority_level := b.priority_level.getD d.priority_level
    is_completed := b.is_completed.getD d.is_completed
    location_lat :=
      if b.location_lat.isNullish then d.location_lat else b.location_lat
    location_lng :=
      if b.location_lng.isNullish then d.location_lng else b.location_lng }

/-- `PUT /destinations/:id`: issues the UPDATE directly, with no resolution
of the parent trip and no ownership check. -/
def updateDestination (db : DB) (uid : String) (destId : ℕ)
    (b : DestinationBody) : HResp × DB :=
  (⟨200, some "Destination updated successfully"⟩,
   { db with
     destinations := db.destinations.map
       (fun d => if d.id == destId then applyDestinationUpdate d b else d) })

/-- `PATCH /destinations/:id/complete`: flips `is_completed` with no
ownership check; when no row matches, reading `result.rows[0]` throws and
the catch block answers 500. -/
def toggleDestinationCompleted (db : DB) (uid : String) (destId : ℕ) :
    HResp × DB :=
  match db.destinations.find? (fun d => d.id == destId) with
  | none => (⟨500, some "Cannot read properties of undefined"⟩, db)
  | some _ =>
      (⟨200, none⟩,
       { db with
         destinations := db.destinations.map
           (fun d =>
             if d.id == destId then { d with is_completed := !d.is_completed }
             else d) })

/-- `DELETE /destinations/:id`: unconditional delete, no ownership check. -/
def deleteDestination (db : DB) (uid : String) (destId : ℕ) : HResp × DB :=
  (⟨200, none⟩,
   { db with destinations := db.destinations.filter (fun d => d.id ≠ destId) })

/-- Ascending order on nullable dates as Postgres sorts them: NULLs last. -/
def dateLt : Option ℤ → Option ℤ → Prop
  | some a, some b => a < b
  | some _, none => True
  | none, _ => False

instance : ∀ a b, Decidable (dateLt a b) := fun a b => by
  cases a <;> cases b <;> simp only [dateLt] <;> infer_instance

/-- `ORDER BY priority_level ASC, visit_date ASC, order_index ASC` of the
destination list queries, as a lexicographic relation. -/
def destRel (a b : Destination) : Prop :=
  a.priority_level < b.priority_level ∨
    (a.priority_level = b.priority_level ∧
      (dateLt a.visit_date b.visit_date ∨
        (a.visit_date = b.visit_date ∧ a.order_index ≤ b.order_index)))

instance : DecidableRel destRel := fun a b => by
  unfold destRel; infer_instance

instance : IsTotal Destination destRel := by
  constructor
  intro a b
  have dateLt_trichotomy :
      ∀ x y : Option ℤ, dateLt x y ∨ x = y ∨ dateLt y x := by
    intro x y
    cases x <;> cases y <;> simp [dateLt] <;> omega
  rcases lt_trichotomy a.priority_level b.priority_level with h | h | h
  · exact Or.inl (Or.inl h)
  · rcases dateLt_trichotomy a.visit_date b.visit_date with hd | hd | hd
    · exact Or.inl (Or.inr ⟨h, Or.inl hd⟩)
    · rcases le_total a.order_index b.order_index with ho | ho
      · exact Or.inl (Or.inr ⟨h, Or.inr ⟨hd, ho⟩⟩)
      · exact Or.inr (Or.inr ⟨h.symm, Or.inr ⟨hd.symm, ho⟩⟩)
    · exact Or.inr (Or.inr ⟨h.symm, Or.inl hd⟩)
  · exact Or.inr (Or.inl h)

instance : IsTrans Destination destRel := by
  constructor
  intro a b c hab hbc
  have dateLt_trans :
      ∀ {x y z : Option ℤ}, dateLt x y → dateLt y z → dateLt x z := by
    intro x y z h1 h2
    cases x <;> cases y <;> cases z <;> simp_all [dateLt] <;> omega
  rcases hab with h1 | ⟨e1, h1⟩
  · rcases hbc with h2 | ⟨e2, _⟩
    · exact Or.inl (lt_trans h1 h2)
    · exact Or.inl (e2 ▸ h1)
  · rcases hbc with h2 | ⟨e2, h2⟩
    · exact Or.inl (e1 ▸ h2)
    · refine Or.inr ⟨e1.trans e2, ?_⟩
      rcases h1 with hd1 | ⟨ed1, ho1⟩
      · rcases h2 with hd2 | ⟨ed2, _⟩
        · exact Or.inl (dateLt_trans hd1 hd2)
        · exact Or.inl (ed2 ▸ hd1)
      · rcases h2 with hd2 | ⟨ed2, ho2⟩
        · exact Or.inl (ed1 ▸ hd2)
        · exact Or.inr ⟨ed1.trans ed2, le_trans ho1 ho2⟩

/-- `GET /trips/:id/destinations` and `GET /destinations?trip_id=`: the
addressed trip's destinations in the itinerary display order.  The requester
from `req.user` is never consulted. -/
def listDestinationsForTrip (db : DB) (uid : String) (tripId : ℕ) :
    List Destination :=
  (db.destinations.filter (fun d => d.trip_id == tripId)).insertionSort destRel

/-- `ORDER BY uploaded_at DESC` of the photo list. -/
def photoRel (a b : Photo) : Prop := b.uploaded_at ≤ a.uploaded_at

instance : DecidableRel photoRel := fun a b => by
  unfold photoRel; infer_instance

instance : IsTotal Photo photoRel :=
  ⟨fun a b => (le_total b.uploaded_at a.uploaded_at).imp (fun h => h) (fun h => h)⟩

instance : IsTrans Photo photoRel :=
  ⟨fun a b c hab hbc => le_trans hbc hab⟩

/-- `GET /trips/:tripId/photos`: the addressed trip's photos, newest upload
first.  The requester from `req.user` is never consulted. -/
def listPhotosForTrip (db : DB) (uid : String) (tripId : ℕ) : List Photo :=
  (db.photos.filter (fun p => p.trip_id == tripId)).insertionSort photoRel

/-- Concrete trip row used by the concrete-input theorems. -/
def mkTrip (i : ℕ) (owner : String) : Trip :=
  { id := i
    user_firebase_uid := owner
    title := .jstr "T"
    country := .jstr "C"
    city := .jstr "Y"
    start_date := 0
    end_date := 1
    notes := .jnull
    image_url := .jnull
    trip_type := .jstr "vacation"
    budget := .jnull
    traveler_count := .jnum 1
    is_favorite := false
    trip_rating := .jnull }

/-- Concrete destination row used by the concrete-input theorems. -/
def mkDest (i tid : ℕ) (prio : ℤ) (vd : Option ℤ) (oi : ℤ) (comp : Bool) :
    Destination :=
  { id := i
    trip_id := tid
    name := .jstr "D"
    description := .jnull
    image_url := .jnull
    order_index := oi
    destination_type := .jnull
    address := .jnull
    visit_date := vd
    visit_time := .jnull
    price_range := .jnull
    priority_level := prio
    is_completed := comp
    location_lat := .jnull
    location_lng := .jnull }

/-- Trip-update body whose enrichment fields are all absent. -/
def tripBody0 : TripUpdateBody :=
  { title := .jstr "t"
    country := .jstr "c"
    city := .jstr "y"
    start_date := 0
    end_date := 1
    notes := .jnull
    image_url := .jnull
    trip_type := .undef
    budget := .undef
    traveler_count := .undef
    is_favorite := .undef
    trip_rating := .undef }

/-- Store with one trip owned by subject "U2": the concrete input on which
the unchecked trip mutators are evaluated. -/
def cx1db : DB := ⟨[], [mkTrip 1 "U2"], [], []⟩

/-- Store with one trip owned by "U2" and one destination of that trip: the
concrete input on which the unchecked destination mutators are evaluated. -/
def cx2db : DB := ⟨[], [mkTrip 1 "U2"], [mkDest 10 1 3 (some 0) 0 false], []⟩

/-- Destination body used against `cx2db`. -/
def cx2body : DestinationBody :=
  { name := .jstr "Louvre"
    description := .jnull
    image_url := .jnull
    order_index := 0
    destination_type := .jnull
    address := .jnull
    visit_date := none
    visit_time := .jnull
    price_range := .jnull
    priority_level := none
    is_completed := none
    location_lat := .jnull
    location_lng := .jnull }

/-- Store whose single trip is a favorite: input of the C6 counterexample. -/
def cx6db : DB :=
  ⟨[],
   [{ mkTrip 1 "u1" with
      is_favorite := true
      budget := .jnum 500
      traveler_count := .jnum 2
      trip_rating := .jnum 4 }],
   [], []⟩

/-- Update body that supplies every field except `is_favorite`. -/
def cx6body : TripUpdateBody :=
  { title := .jstr "New"
    country := .jstr "FR"
    city := .jstr "Paris"
    start_date := 10
    end_date := 20
    notes := .jstr "n"
    image_url := .jstr "u"
    trip_type := .jstr "work"
    budget := .jnum 800
    traveler_count := .jnum 3
    is_favorite := .undef
    trip_rating := .jnum 5 }

/-- Store whose trip 1 has destinations with priority levels 3, 1, 2 and
equal visit dates. -/
def cx8db : DB :=
  ⟨[], [mkTrip 1 "u1"],
   [mkDest 11 1 3 (some 5) 0 false,
    mkDest 12 1 1 (some 5) 0 false,
    mkDest 13 1 2 (some 5) 0 false],
   []⟩

/-- Store with one trip owned by "U2", for the C4 witness. -/
def wx4db : DB := ⟨[], [mkTrip 7 "U2"], [], []⟩

/-- Concrete identity provider: accepts exactly the token "good". -/
def wx5verify : String → Option AuthUser :=
  fun t => if t == "good" then some ⟨"u1", "u1@example.com"⟩ else none

/-- Store with one trip owned by "u1", for the C7 witnesses. -/
def wx7db : DB := ⟨[], [mkTrip 1 "u1"], [], []⟩

/-- Store whose trip 3 has no destinations, and whose trip 4 has three
destinations of which one is completed, for the C9 witness. -/
def wx9db : DB :=
  ⟨[], [mkTrip 3 "u1", mkTrip 4 "u1"],
   [mkDest 21 4 3 (some 0) 0 true,
    mkDest 22 4 3 (some 0) 1 false,
    mkDest 23 4 3 (some 0) 2 false],
   []⟩

/-- Store with one trip owned by "alice", for the C10 witness. -/
def wx10db : DB := ⟨[], [mkTrip 1 "alice"], [], []⟩

/-- The enriched view of the single trip of `wx10db`. -/
def wx10view : TripView := enrichTrip wx10db (mkTrip 1 "alice")

/-- C1: the claim that every mutating or deleting trip operation (update,
delete, toggle_favorite, set_rating) verifies the trip's owner against the
requester before writing is violated by the code.  Evaluated on a store whose
only trip is owned by "U2", the delete, toggle-favorite and set-rating
handlers invoked by requester "U1" all answer 200 and mutate (or remove) the
row; only the update handler performs the check. -/
theorem C1_trip_mutators_skip_ownership_check :
    (deleteTrip cx1db "U1" 1).fst.status = 200 ∧
    (deleteTrip cx1db "U1" 1).snd.trips = [] ∧
    (toggleFavorite cx1db "U1" 1).fst.status = 200 ∧
    ((toggleFavorite cx1db "U1" 1).snd.trips.find? (fun t => t.id == 1)).map
        Trip.is_favorite = some true ∧
    (setRating cx1db "U1" 1 (JVal.jnum 4)).fst.status = 200 ∧
    ((setRating cx1db "U1" 1 (JVal.jnum 4)).snd.trips.find?
        (fun t => t.id == 1)).map Trip.trip_rating = some (JVal.jnum 4) := by
  refine ⟨rfl, ?_, rfl, ?_, ?_, ?_⟩ <;> decide

/-- C2: the claim that every destination mutation first resolves the parent
trip and checks its owner is violated by the code.  Evaluated on a store
whose only trip is owned by "U2", the create, update, toggle-completed and
delete destination handlers invoked by requester "U1" all succeed and write,
with no trip resolution at all.  (The `Destination` row indeed stores no
owner field, as the model's `Destination` structure shows.) -/
theorem C2_destination_mutators_skip_ownership_check :
    (deleteDestination cx2db "U1" 10).fst.status = 200 ∧
    (deleteDestination cx2db "U1" 10).snd.destinations = [] ∧
    (toggleDestinationCompleted cx2db "U1" 10).fst.status = 200 ∧
    ((toggleDestinationCompleted cx2db "U1" 10).snd.destinations.find?
        (fun d => d.id == 10)).map Destination.is_completed = some true ∧
    (createDestination cx2db "U1" 1 cx2body).fst.status = 201 ∧
    (createDestination cx2db "U1" 1 cx2body).snd.destinations.length = 2 ∧
    (updateDestination cx2db "U1" 10 cx2body).fst.status = 200 ∧
    ((updateDestination cx2db "U1" 10 cx2body).snd.destinations.find?
        (fun d => d.id == 10)).map Destination.name = some (JVal.jstr "Louvre") := by
  refine ⟨rfl, ?_, rfl, ?_, rfl, ?_, rfl, ?_⟩ <;> decide

/-- C3 counterexample: authenticating twice with subject "u1", first with
email "old@example.com" and then with "new@example.com", leaves one user row
whose stored email is still "old@example.com" — not the latest email, as the
claim states — because the insert is `ON CONFLICT ... DO NOTHING`. -/
theorem C3_counterexample_email_not_overwritten :
    ((upsertUser (upsertUser ⟨[], [], [], []⟩ "u1" "old@example.com") "u1"
        "new@example.com").users.find? (fun r => r.firebase_uid == "u1")).map
      UserRow.email = some "old@example.com" ∧
    ((upsertUser (upsertUser ⟨[], [], [], []⟩ "u1" "old@example.com") "u1"
        "new@example.com").users.find? (fun r => r.firebase_uid == "u1")).map
      UserRow.email ≠ some "new@example.com" := by
  constructor <;> decide

/-- C3 (amended): authenticating twice with the same subject id but a changed
email leaves exactly one user row for that subject, but the row keeps the
FIRST email seen — the insert is keyed on the subject id with DO NOTHING on
conflict, so identity attributes are never refreshed. -/
theorem C3_upsert_keeps_first_email :
    ∀ (db : DB) (uid e1 e2 : String),
      (db.users.filter (fun r => r.firebase_uid == uid)).length = 0 →
      ((upsertUser (upsertUser db uid e1) uid e2).users.filter
          (fun r => r.firebase_uid == uid)).length = 1 ∧
      (upsertUser (upsertUser db uid e1) uid e2).users.find?
          (fun r => r.firebase_uid == uid) = some ⟨uid, e1⟩ := by
  intro db uid e1 e2 h
  have hnil : db.users.filter (fun r => r.firebase_uid == uid) = [] :=
    List.length_eq_zero.mp h
  have hmem : ∀ r ∈ db.users, ¬(r.firebase_uid == uid) = true := by
    intro r hr hbeq
    have hrf : r ∈ db.users.filter (fun r => r.firebase_uid == uid) :=
      List.mem_filter.mpr ⟨hr, hbeq⟩
    rw [hnil] at hrf
    exact absurd hrf (List.not_mem_nil r)
  have hany : db.users.any (fun r => r.firebase_uid == uid) = false := by
    rw [List.any_eq_false]
    exact hmem
  have hstep1 : upsertUser db uid e1 =
      { db with users := db.users ++ [⟨uid, e1⟩] } := by
    unfold upsertUser
    rw [hany]
    rfl
  have hany2 : (db.users ++ [(⟨uid, e1⟩ : UserRow)]).any
      (fun r => r.firebase_uid == uid) = true := by
    rw [List.any_eq_true]
    exact ⟨⟨uid, e1⟩, List.mem_append_right _ (List.mem_singleton_self _),
      beq_self_eq_true uid⟩
  have hstep2 : upsertUser (upsertUser db uid e1) uid e2 =
      { db with users := db.users ++ [⟨uid, e1⟩] } := by
    rw [hstep1]
    unfold upsertUser
    rw [hany2]
    rw [if_pos rfl]
  rw [hstep2]
  constructor
  · rw [List.filter_append, hnil]
    simp
  · rw [List.find?_append]
    have hfn : db.users.find? (fun r => r.firebase_uid == uid) = none := by
      rw [List.find?_eq_none]
      exact hmem
    rw [hfn]
    simp

/-- Witness of the amended C3 at a concrete input: the empty store, subject
"u1", first email "a", second email "b". -/
theorem C3_upsert_keeps_first_email_witness :
    ((upsertUser (upsertUser ⟨[], [], [], []⟩ "u1" "a") "u1" "b").users.filter
        (fun r => r.firebase_uid == "u1")).length = 1 ∧
    (upsertUser (upsertUser ⟨[], [], [], []⟩ "u1" "a") "u1" "b").users.find?
        (fun r => r.firebase_uid == "u1") = some ⟨"u1", "a"⟩ :=
  C3_upsert_keeps_first_email ⟨[], [], [], []⟩ "u1" "a" "b" (by decide)

/-- C4: the canonical trip update first looks the trip up and compares its
owner with the requester: it answers 404 with no write when the trip is
absent, 403 with no write when the trip exists but is owned by someone else,
and the two failure statuses are distinct, so the caller can tell them
apart. -/
theorem C4_update_checks_owner :
    ∀ (db : DB) (uid : String) (tid : ℕ) (b : TripUpdateBody),
      (db.trips.find? (fun t => t.id == tid) = none →
        updateTrip db uid tid b = (⟨404, some "Trip not found"⟩, db)) ∧
      (∀ t, db.trips.find? (fun t => t.id == tid) = some t →
        t.user_firebase_uid ≠ uid →
        updateTrip db uid tid b =
          (⟨403, some "Not authorized to edit this trip"⟩, db)) ∧
      (404 : ℕ) ≠ 403 := by
  intro db uid tid b
  refine ⟨?_, ?_, by decide⟩
  · intro h
    unfold updateTrip
    rw [h]
  · intro t ht hne
    unfold updateTrip
    rw [ht]
    simp [hne]

/-- Witness of C4 at a concrete input: a store whose trip 7 is owned by
"U2"; requester "U1" gets 403 on trip 7 and 404 on the absent trip 99, the
store unchanged both times. -/
theorem C4_update_checks_owner_witness :
    updateTrip wx4db "U1" 7 tripBody0 =
      (⟨403, some "Not authorized to edit this trip"⟩, wx4db) ∧
    updateTrip wx4db "U1" 99 tripBody0 = (⟨404, some "Trip not found"⟩, wx4db) :=
  ⟨(C4_update_checks_owner wx4db "U1" 7 tripBody0).2.1 (mkTrip 7 "U2") (by decide)
      (by decide),
   (C4_update_checks_owner wx4db "U1" 99 tripBody0).1 (by decide)⟩

/-- C5: the middleware answers 401 with a JSON error body — and no handler
runs — exactly in the three short-circuit cases (no Authorization header, a
header without the Bearer scheme, a token the provider rejects); when the
provider accepts the token it attaches the decoded identity and proceeds,
and a failure of the user-insert round trip does not reject the request: the
outcome is still `authenticated`, with the failure only logged. -/
theorem C5_auth_middleware_behaviour :
    ∀ (db : DB) (pv : String → Option AuthUser) (storeOk : Bool),
      verifyToken db none pv storeOk =
        .rejected 401 "Unauthorized: No token provided" ∧
      (∀ h : String, strStartsWith h "Bearer " = false →
        verifyToken db (some h) pv storeOk =
          .rejected 401 "Unauthorized: No token provided") ∧
      (∀ h : String, strStartsWith h "Bearer " = true →
        pv (bearerToken h) = none →
        verifyToken db (some h) pv storeOk =
          .rejected 401 "Unauthorized: Invalid token") ∧
      (∀ (h : String) (u : AuthUser), strStartsWith h "Bearer " = true →
        pv (bearerToken h) = some u →
        verifyToken db (some h) pv storeOk =
          .authenticated u (if storeOk then upsertUser db u.uid u.email else db)
            (!storeOk)) := by
  intro db pv storeOk
  refine ⟨rfl, ?_, ?_, ?_⟩
  · intro h hs
    simp [verifyToken, hs]
  · intro h hs hv
    simp [verifyToken, hs, hv]
  · intro h u hs hv
    cases storeOk <;> simp [verifyToken, hs, hv]

/-- Witness of C5 at concrete inputs, against the provider that accepts
exactly the token "good": a missing header, a non-Bearer header and a bad
token are each rejected with 401, and a good token with a failing store
round trip still authenticates (with the failure logged). -/
theorem C5_auth_middleware_behaviour_witness :
    verifyToken ⟨[], [], [], []⟩ none wx5verify true =
      .rejected 401 "Unauthorized: No token provided" ∧
    verifyToken ⟨[], [], [], []⟩ (some "Token abc") wx5verify true =
      .rejected 401 "Unauthorized: No token provided" ∧
    verifyToken ⟨[], [], [], []⟩ (some "Bearer bad") wx5verify true =
      .rejected 401 "Unauthorized: Invalid token" ∧
    verifyToken ⟨[], [], [], []⟩ (some "Bearer good") wx5verify false =
      .authenticated ⟨"u1", "u1@example.com"⟩ ⟨[], [], [], []⟩ true := by
  refine ⟨(C5_auth_middleware_behaviour ⟨[], [], [], []⟩ wx5verify true).1,
    (C5_auth_middleware_behaviour ⟨[], [], [], []⟩ wx5verify true).2.1
      "Token abc" (by decide),
    (C5_auth_middleware_behaviour ⟨[], [], [], []⟩ wx5verify true).2.2.1
      "Bearer bad" (by decide) (by decide),
    ?_⟩
  have h4 := (C5_auth_middleware_behaviour ⟨[], [], [], []⟩ wx5verify false).2.2.2
    "Bearer good" ⟨"u1", "u1@example.com"⟩ (by decide) (by decide)
  simpa using h4

/-- C6 counterexample: on the canonical trip update, a body that omits the
enrichment field `is_favorite` does NOT keep the trip's existing value: the
trip of `cx6db` is a favorite, the body `cx6body` supplies every field except
`is_favorite`, and after the owner's update the stored flag is `false`
(`Boolean(undefined)`), not the kept `true` the claim requires. -/
theorem C6_counterexample_favorite_not_kept :
    ((updateTrip cx6db "u1" 1 cx6body).snd.trips.find?
        (fun t => t.id == 1)).map Trip.is_favorite = some false ∧
    (cx6db.trips.find? (fun t => t.id == 1)).map Trip.is_favorite = some true := by
  constructor <;> decide

/-- C6 (amended): in the canonical trip update the core fields (title,
country, city, dates, notes, image_url) are fully replaced by the supplied
values, but of the enrichment fields only `trip_type` keeps its existing
value when absent; an absent `is_favorite` is coerced to `false`, an absent
`traveler_count` to 1, and absent `budget`/`trip_rating` to NaN, instead of
being kept.  The keep-existing-when-absent semantics for all five enrichment
fields holds only in the older COALESCE variant of the handler. -/
theorem C6_amended_update_field_semantics :
    ∀ (t : Trip) (b : TripUpdateBody),
      (applyTripUpdate t b).title = b.title ∧
      (applyTripUpdate t b).country = b.country ∧
      (applyTripUpdate t b).city = b.city ∧
      (applyTripUpdate t b).start_date = b.start_date ∧
      (applyTripUpdate t b).end_date = b.end_date ∧
      (applyTripUpdate t b).notes = b.notes ∧
      (applyTripUpdate t b).image_url = b.image_url ∧
      (b.trip_type = .undef → (applyTripUpdate t b).trip_type = t.trip_type) ∧
      (b.is_favorite = .undef → (applyTripUpdate t b).is_favorite = false) ∧
      (b.traveler_count = .undef →
        (applyTripUpdate t b).traveler_count = .jnum 1) ∧
      (b.budget = .undef → (applyTripUpdate t b).budget = .jnan) ∧
      (b.trip_rating = .undef → (applyTripUpdate t b).trip_rating = .jnan) ∧
      (b.trip_type = .undef →
        (applyTripUpdateCoalesce t b).trip_type = t.trip_type) ∧
      (b.budget = .undef → (applyTripUpdateCoalesce t b).budget = t.budget) ∧
      (b.traveler_count = .undef →
        (applyTripUpdateCoalesce t b).traveler_count = t.traveler_count) ∧
      (b.is_favorite = .undef →
        (applyTripUpdateCoalesce t b).is_favorite = t.is_favorite) ∧
      (b.trip_rating = .undef →
        (applyTripUpdateCoalesce t b).trip_rating = t.trip_rating) := by
  intro t b
  refine ⟨rfl, rfl, rfl, rfl, rfl, rfl, rfl, ?_, ?_, ?_, ?_, ?_, ?_, ?_, ?_,
    ?_, ?_⟩ <;>
    intro h <;>
    simp [applyTripUpdate, applyTripUpdateCoalesce, h, JVal.isNullish,
      cleanIsFavorite, JVal.truthy, cleanTravelerCount, cleanBudget,
      cleanTripRating, jsParseFloat, jsParseInt]

/-- Witness of the amended C6 at a concrete input: updating `mkTrip 1 "u1"`
with the body whose enrichment fields are all absent sets `is_favorite` to
false and `traveler_count` to 1, while the COALESCE variant keeps the
existing `is_favorite`. -/
theorem C6_amended_update_field_semantics_witness :
    (applyTripUpdate (mkTrip 1 "u1") tripBody0).is_favorite = false ∧
    (applyTripUpdate (mkTrip 1 "u1") tripBody0).traveler_count = .jnum 1 ∧
    (applyTripUpdate (mkTrip 1 "u1") tripBody0).budget = .jnan ∧
    (applyTripUpdate (mkTrip 1 "u1") tripBody0).title = tripBody0.title ∧
    (applyTripUpdateCoalesce (mkTrip 1 "u1") tripBody0).is_favorite =
      (mkTrip 1 "u1").is_favorite :=
  ⟨(C6_amended_update_field_semantics (mkTrip 1 "u1") tripBody0).2.2.2.2.2.2.2.2.1
      rfl,
   (C6_amended_update_field_semantics (mkTrip 1 "u1") tripBody0).2.2.2.2.2.2.2.2.2.1
      rfl,
   (C6_amended_update_field_semantics (mkTrip 1 "u1")
      tripBody0).2.2.2.2.2.2.2.2.2.2.1 rfl,
   (C6_amended_update_field_semantics (mkTrip 1 "u1") tripBody0).1,
   (C6_amended_update_field_semantics (mkTrip 1 "u1")
      tripBody0).2.2.2.2.2.2.2.2.2.2.2.2.2.2.2.1 rfl⟩

/-- C7 counterexample: the rating 2.5 is not an integer, yet the handler does
not answer 400: the gate `rating < 1 || rating > 5` lets it through and the
UPDATE is issued (status 200 here, where the store accepts the write). -/
theorem C7_counterexample_noninteger_rating :
    (setRating wx7db "u1" 1 (JVal.jnum (5 / 2))).fst.status = 200 ∧
    (setRating wx7db "u1" 1 (JVal.jnum (5 / 2))).fst.status ≠ 400 ∧
    ¬ ∃ n : ℤ, ((5 : ℚ) / 2) = (n : ℚ) := by
  have hlt : jsLtNum (JVal.jnum (5 / 2)) 1 = false := by
    simp only [jsLtNum, JVal.toNum, decide_eq_false_iff_not]
    norm_num
  have hgt : jsGtNum (JVal.jnum (5 / 2)) 5 = false := by
    simp only [jsGtNum, JVal.toNum, decide_eq_false_iff_not]
    norm_num
  refine ⟨?_, ?_, ?_⟩
  · unfold setRating
    rw [hlt, hgt]
    rfl
  · unfold setRating
    rw [hlt, hgt]
    simp
  · rintro ⟨n, hn⟩
    have h2 : ((5 : ℚ) / 2).den = 2 := by norm_num
    rw [hn, Rat.den_intCast] at h2
    exact absurd h2 (by decide)

/-- C7 (amended): the rating gate answers 400 — leaving the store untouched —
exactly when the JavaScript comparison `rating < 1 || rating > 5` holds of
the body value's numeric coercion; any other value, integer or not (2.5, or
even a value whose coercion is NaN), passes the gate and is written to the
addressed row with status 200.  In particular 0 and 6 are rejected and 1 and
5 are accepted and stored. -/
theorem C7_amended_rating_gate :
    ∀ (db : DB) (uid : String) (tid : ℕ) (r : JVal),
      ((setRating db uid tid r).fst.status = 400 ↔
        (jsLtNum r 1 = true ∨ jsGtNum r 5 = true)) ∧
      ((setRating db uid tid r).fst.status = 400 →
        (setRating db uid tid r).snd = db) ∧
      (jsLtNum r 1 = false → jsGtNum r 5 = false →
        (setRating db uid tid r).fst.status = 200 ∧
        (setRating db uid tid r).snd.trips =
          db.trips.map
            (fun t => if t.id == tid then { t with trip_rating := r } else t)) := by
  intro db uid tid r
  unfold setRating
  rcases h1 : jsLtNum r 1 <;> rcases h2 : jsGtNum r 5 <;> simp

/-- Witness of the amended C7 at concrete inputs: ratings 0 and 6 are
rejected with 400 and leave the store unchanged; ratings 1 and 5 pass with
200. -/
theorem C7_amended_rating_gate_witness :
    (setRating wx7db "u1" 1 (JVal.jnum 0)).fst.status = 400 ∧
    (setRating wx7db "u1" 1 (JVal.jnum 6)).fst.status = 400 ∧
    (setRating wx7db "u1" 1 (JVal.jnum 0)).snd = wx7db ∧
    (setRating wx7db "u1" 1 (JVal.jnum 1)).fst.status = 200 ∧
    (setRating wx7db "u1" 1 (JVal.jnum 5)).fst.status = 200 :=
  ⟨(C7_amended_rating_gate wx7db "u1" 1 (JVal.jnum 0)).1.mpr (Or.inl (by decide)),
   (C7_amended_rating_gate wx7db "u1" 1 (JVal.jnum 6)).1.mpr (Or.inr (by decide)),
   (C7_amended_rating_gate wx7db "u1" 1 (JVal.jnum 0)).2.1
     ((C7_amended_rating_gate wx7db "u1" 1 (JVal.jnum 0)).1.mpr
       (Or.inl (by decide))),
   ((C7_amended_rating_gate wx7db "u1" 1 (JVal.jnum 1)).2.2 (by decide)
       (by decide)).1,
   ((C7_amended_rating_gate wx7db "u1" 1 (JVal.jnum 5)).2.2 (by decide)
       (by decide)).1⟩

/-- C8: listing a trip's destinations returns exactly the rows whose
`trip_id` matches, ordered by the lexicographic ORDER BY key (priority level
ascending, then visit date ascending, then order index ascending); on the
concrete store whose trip has priority levels [3,1,2] with equal visit dates,
the returned priority order is [1,2,3]. -/
theorem C8_destination_list_order :
    (∀ (db : DB) (uid : String) (tid : ℕ),
      List.Perm (listDestinationsForTrip db uid tid)
        (db.destinations.filter (fun d => d.trip_id == tid)) ∧
      List.Sorted destRel (listDestinationsForTrip db uid tid)) ∧
    (listDestinationsForTrip cx8db "anyone" 1).map Destination.priority_level =
      [1, 2, 3] := by
  refine ⟨fun db uid tid =>
    ⟨List.perm_insertionSort destRel _, List.sorted_insertionSort destRel _⟩, ?_⟩
  decide

/-- C9: the stats endpoint computes `progress_percentage` as the rounding of
`100 * completed / total` destinations, and returns 0 — with no
division-by-zero fault, the zero-total branch never divides — when the trip
has no destinations. -/
theorem C9_stats_progress :
    ∀ (db : DB) (uid : String) (tid : ℕ),
      (0 < (tripStats db uid tid).total_destinations →
        (tripStats db uid tid).progress_percentage =
          round ((100 * ((tripStats db uid tid).completed_destinations : ℚ)) /
            ((tripStats db uid tid).total_destinations : ℚ))) ∧
      ((tripStats db uid tid).total_destinations = 0 →
        (tripStats db uid tid).progress_percentage = 0) := by
  intro db uid tid
  have hgen : ∀ (c t : ℕ), 0 < t →
      (if 0 < t then jsMathRound (((c : ℚ) / (t : ℚ)) * 100) else 0) =
        round ((100 * (c : ℚ)) / (t : ℚ)) := by
    intro c t ht
    rw [if_pos ht, jsMathRound, round_eq]
    congr 1
    ring
  constructor
  · intro h
    exact hgen _ _ h
  · intro h
    have hnot : ¬ 0 < (tripStats db uid tid).total_destinations := by omega
    exact if_neg hnot

/-- Witness of C9 at concrete inputs: trip 3 of `wx9db` has zero destinations
and its progress percentage is 0; trip 4 has three destinations and its
progress percentage is the rounded ratio. -/
theorem C9_stats_progress_witness :
    (tripStats wx9db "anyone" 3).total_destinations = 0 ∧
    (tripStats wx9db "anyone" 3).progress_percentage = 0 ∧
    0 < (tripStats wx9db "anyone" 4).total_destinations ∧
    (tripStats wx9db "anyone" 4).progress_percentage =
      round ((100 * ((tripStats wx9db "anyone" 4).completed_destinations : ℚ)) /
        ((tripStats wx9db "anyone" 4).total_destinations : ℚ)) :=
  ⟨by decide, (C9_stats_progress wx9db "anyone" 3).2 (by decide), by decide,
   (C9_stats_progress wx9db "anyone" 4).1 (by decide)⟩

/-- C10: the single-trip read operations (get one trip, its stats, its
destination list, its photo list) never consult the requester — any two
authenticated requesters receive identical results for any store and trip
id — while the trip-list operation returns only trips owned by the
requester. -/
theorem C10_reads_unscoped_list_scoped :
    ∀ (db : DB) (tid : ℕ) (u1 u2 : String),
      getTrip db u1 tid = getTrip db u2 tid ∧
      tripStats db u1 tid = tripStats db u2 tid ∧
      listDestinationsForTrip db u1 tid = listDestinationsForTrip db u2 tid ∧
      listPhotosForTrip db u1 tid = listPhotosForTrip db u2 tid ∧
      (∀ v ∈ listTrips db u1, v.trip.user_firebase_uid = u1) := by
  intro db tid u1 u2
  refine ⟨rfl, rfl, rfl, rfl, ?_⟩
  intro v hv
  unfold listTrips at hv
  rw [List.mem_map] at hv
  obtain ⟨t, ht, rfl⟩ := hv
  rw [List.mem_insertionSort] at ht
  rw [List.mem_filter] at ht
  simpa [enrichTrip] using eq_of_beq ht.2

/-- Witness of C10 at a concrete input: on `wx10db`, requesters "alice" and
"bob" read the same single trip, and the one entry of "alice"'s trip list is
owned by "alice". -/
theorem C10_reads_unscoped_list_scoped_witness :
    getTrip wx10db "alice" 1 = getTrip wx10db "bob" 1 ∧
    wx10view.trip.user_firebase_uid = "alice" := by
  obtain ⟨h1, _, _, _, h5⟩ :=
    C10_reads_unscoped_list_scoped wx10db 1 "alice" "bob"
  exact ⟨h1, h5 wx10view (by decide)⟩

end TravelApi
